import Mathlib

/-!
Verification development for the topology-discovery / deterministic-traceroute
core of an AWS network tooling repository.  The Python sources embedded here
are src/aws_network_tools/traceroute/engine.py, topology.py, staleness.py and
src/aws_network_tools/core/cache.py.  Pure functions are translated directly;
API calls performed by the code are modelled as explicit inputs (environment
records holding the values or errors those calls would produce), and Python
exceptions are modelled with Except.  Machine strings are Lean Strings; the
character-level helpers below reimplement the Python string operations the
code relies on (str.split, int parsing, startswith, endswith) so that every
definition evaluates inside the kernel.
-/

namespace AwsNetTools

/-! ## Character-level string helpers (models of the Python string operations) -/

/-- Split a list of characters on a single-character separator, Python
str.split semantics: splitting the empty string yields one empty chunk. -/
def charSplit (sep : Char) : List Char → List (List Char)
  | [] => [[]]
  | c :: rest =>
    let r := charSplit sep rest
    if c = sep then [] :: r
    else
      match r with
      | [] => [[c]]
      | g :: gs => (c :: g) :: gs

/-- Split a string on a single-character separator. -/
def pySplit (s : String) (sep : Char) : List String :=
  (charSplit sep s.data).map String.mk

/-- Parse a decimal numeral the way Python's ipaddress module parses octets
and prefix lengths: digits only, nonempty, and no leading zero unless the
numeral is the single digit 0. -/
def parseDecimal (cs : List Char) : Option Nat :=
  match cs with
  | [] => none
  | c :: rest =>
    if (c :: rest).all Char.isDigit then
      if c = '0' ∧ rest ≠ [] then none
      else some ((c :: rest).foldl (fun acc d => acc * 10 + (d.toNat - 48)) 0)
    else none

/-- Python str.startswith, as a list-of-characters test. -/
def charStartsWith : List Char → List Char → Bool
  | [], _ => true
  | _, [] => false
  | p :: ps, s :: ss => p = s && charStartsWith ps ss

/-- Python s.startswith(p). -/
def pyStartsWith (s p : String) : Bool :=
  charStartsWith p.data s.data

/-- Python s.endswith(p). -/
def pyEndsWith (s p : String) : Bool :=
  charStartsWith p.data.reverse s.data.reverse

/-- Python truthiness of an optional string: None and the empty string are
falsy, any other string is truthy. -/
def pyTruthy (o : Option String) : Bool :=
  match o with
  | some s => !(s.data.isEmpty)
  | none => false

/-- Python str() of an optional string; str(None) is the text None, which is
how a missing segment name is rendered into an f-string by the engine. -/
def pyOptStr (o : Option String) : String :=
  match o with
  | some s => s
  | none => "None"

/-- Last component of an ARN after splitting on slashes, the Python idiom
arn.split on slash, last element.  Splitting always yields at least one
chunk, so the default is never used on real input. -/
def lastSlashComponent (s : String) : String :=
  ((pySplit s '/').getLast?).getD ""

/-! ## IPv4 addresses and CIDR networks

The engine uses Python ipaddress.ip_address and ipaddress.ip_network
(strict=False).  An IPv4 address is modelled as a Nat below 2^32; a network
as the masked network address together with the prefix length.  Parsing
failures (ValueError) are modelled as none; IPv6 strings parse as none
here, which coincides with the engine's observable behaviour because an
IPv6 network never contains an IPv4 address. -/

/-- Parse a dotted-quad IPv4 address string to its numeric value. -/
def parseIPv4 (s : String) : Option Nat :=
  match (charSplit '.' s.data).map parseDecimal with
  | [some a, some b, some c, some d] =>
    if a ≤ 255 ∧ b ≤ 255 ∧ c ≤ 255 ∧ d ≤ 255 then
      some (((a * 256 + b) * 256 + c) * 256 + d)
    else none
  | _ => none

/-- An IPv4 network: network address (host bits already masked off, the
strict=False behaviour of ip_network) and prefix length. -/
structure Cidr where
  addr : Nat
  prefixlen : Nat
deriving Repr, DecidableEq

/-- Mask the host bits of an address for a given prefix length. -/
def maskAddr (a : Nat) (len : Nat) : Nat :=
  (a / 2 ^ (32 - len)) * 2 ^ (32 - len)

/-- Parse a CIDR string; a bare address is a /32, ip_network strict=False
semantics.  Returns none where ip_network would raise ValueError. -/
def parseCidr (s : String) : Option Cidr :=
  match pySplit s '/' with
  | [ip] => (parseIPv4 ip).map (fun a => ⟨a, 32⟩)
  | [ip, l] =>
    match parseIPv4 ip, parseDecimal l.data with
    | some a, some len => if len ≤ 32 then some ⟨maskAddr a len, len⟩ else none
    | _, _ => none
  | _ => none

/-- Membership of an address in a network: the two agree on the network
bits.  This is the ipaddress __contains__ test. -/
def cidrContains (c : Cidr) (ip : Nat) : Bool :=
  ip / 2 ^ (32 - c.prefixlen) = c.addr / 2 ^ (32 - c.prefixlen)

/-! ## Route tables and longest-prefix-match selection (engine.py) -/

/-- One parsed route entry, the dict built by _parse_route_table /
_discover_vpcs: destination CIDR string, target, optional Cloud WAN core
network ARN, and state. -/
structure RouteEntry where
  destination : String
  target : String
  core_network_arn : Option String
  state : String
deriving Repr, DecidableEq

/-- A parsed route table: id, Name tag, and its routes. -/
structure RouteTable where
  id : String
  name : String
  routes : List RouteEntry
deriving Repr, DecidableEq

/-- Whether a route entry is considered by _find_best_route for a given
destination address: not a blackhole, destination parses, and the parsed
network contains the address.  An empty destination string parses as none,
matching the explicit empty-destination skip in the code. -/
def routeMatches (dst : Nat) (r : RouteEntry) : Bool :=
  !(r.state == "blackhole") &&
    (match parseCidr r.destination with
     | some net => cidrContains net dst
     | none => false)

/-- Prefix length of a route's destination, 0 when it does not parse (only
ever used on routes that match, whose destination parses). -/
def routePrefixLen (r : RouteEntry) : Nat :=
  match parseCidr r.destination with
  | some net => net.prefixlen
  | none => 0

/-- The loop of _find_best_route: best_match and best_prefix_len fold,
initial best_prefix_len is -1, a candidate replaces the current best only
when its prefix length is strictly greater. -/
def findBestLoop (dst : Nat) : List RouteEntry → Option RouteEntry → Int → Option RouteEntry
  | [], best, _ => best
  | r :: rest, best, bestLen =>
    if routeMatches dst r = true ∧ (routePrefixLen r : Int) > bestLen then
      findBestLoop dst rest (some r) (routePrefixLen r)
    else
      findBestLoop dst rest best bestLen

/-- AWSTraceroute._find_best_route: longest-prefix-match selection over a
route list, skipping blackhole and unparsable entries. -/
def find_best_route (routes : List RouteEntry) (dst : Nat) : Option RouteEntry :=
  findBestLoop dst routes none (-1)

/-! ## Trace engine data model (engine.py, models.py) -/

/-- Resolved ENI information, the ENIInfo dataclass. -/
structure ENIInfo where
  eni_id : String
  ip : String
  vpc_id : String
  subnet_id : String
  region : String
  security_groups : List String
deriving Repr, DecidableEq

/-- One value of the topology's eni_index: ip -> this record. -/
structure EniIndexEntry where
  eni_id : String
  vpc_id : String
  subnet_id : String
  region : String
  security_groups : List String
deriving Repr, DecidableEq

/-- A hop of the computed path, the Hop dataclass.  The detail map is an
association list; a value of none renders a Python None. -/
structure Hop where
  seq : Nat
  type : String
  id : String
  name : String
  region : String
  detail : List (String × Option String)
deriving Repr, DecidableEq

/-- The TraceResult dataclass (security_checks is never written by the
engine and is omitted). -/
structure TraceResult where
  src_ip : String
  dst_ip : String
  reachable : Bool
  hops : List Hop
  blocked_at : Option Hop
  blocked_reason : String
deriving Repr, DecidableEq

/-- A Cloud WAN attachment record, keeping the keys the engine reads.
Keys read with dict.get are Options; AttachmentId is read with mandatory
indexing and is modelled as always present. -/
structure Attachment where
  resource_arn : String
  edge_location : Option String
  segment_name : Option String
  nfg_name : Option String
  attachment_id : String
  tags : List (String × String)
deriving Repr, DecidableEq

/-- The when-sent-to.segments field of a send-via policy action: either the
literal string star (compared with == in the code) or a list of segment
names. -/
inductive SegSpec where
  | star
  | segs (l : List String)
deriving Repr, DecidableEq

/-- One entry of the policy document's segment-actions list, keeping the
keys _get_send_via_nfg reads: action, (source) segment, when-sent-to
segments, and via.network-function-groups. -/
structure SegmentAction where
  action : String
  segment : String
  when_sent_to : SegSpec
  via_nfgs : List String
deriving Repr, DecidableEq

/-- The NetworkTopology dataclass (topology.py).  Global and core network
records, TGW records and TGW route tables are kept as their identifiers:
the engine and the claims never read any other of their fields.  The
cwan_policy dict is kept as its segment-actions list, the only part the
engine reads.  Python dicts keyed by strings are association lists looked
up with List.lookup. -/
structure NetworkTopology where
  account_id : String
  regions : List String
  global_networks : List String
  core_networks : List String
  cwan_attachments : List Attachment
  cwan_policy_segment_actions : List SegmentAction
  tgws : List (String × List String)
  tgw_route_tables : List (String × List String)
  vpcs : List (String × List String)
  route_tables : List (String × RouteTable)
  eni_index : List (String × EniIndexEntry)
deriving Repr, DecidableEq

/-- The environment a single trace runs against: the loaded topology plus
the results the live API fallbacks would produce.  liveEni models the
bounded per-region search of _find_eni_api (which returns an ENIInfo or
None and never raises, every per-region probe being wrapped in try/except);
liveRouteTable models _get_subnet_route_table, which always returns a
parsed table, falling back to the main table or an unknown placeholder.
The write-back of a live ENI hit into the in-memory index does not affect
the result of the trace performing it, so the model keeps lookups pure. -/
structure TraceEnv where
  topology : NetworkTopology
  liveEni : String → Option ENIInfo
  liveRouteTable : ENIInfo → RouteTable

/-! ## Trace engine operations (engine.py) -/

/-- AWSTraceroute._find_eni_cached: index lookup first, live search as the
fallback. -/
def find_eni_cached (env : TraceEnv) (ip : String) : Option ENIInfo :=
  match env.topology.eni_index.lookup ip with
  | some e =>
    some { eni_id := e.eni_id, ip := ip, vpc_id := e.vpc_id,
           subnet_id := e.subnet_id, region := e.region,
           security_groups := e.security_groups }
  | none => env.liveEni ip

/-- AWSTraceroute._get_route_table_cached: subnet-specific table first,
then the main table of the VPC. -/
def get_route_table_cached (topo : NetworkTopology) (subnetId vpcId : String) :
    Option RouteTable :=
  match topo.route_tables.lookup subnetId with
  | some rt => some rt
  | none => topo.route_tables.lookup ("main:" ++ vpcId)

/-- The route-table resolution step of trace: cached lookup, live fetch on
miss. -/
def resolve_route_table (env : TraceEnv) (eni : ENIInfo) : RouteTable :=
  match get_route_table_cached env.topology eni.subnet_id eni.vpc_id with
  | some rt => rt
  | none => env.liveRouteTable eni

/-- AWSTraceroute._get_segment_for_vpc: the SegmentName of the first
attachment whose ResourceArn ends with the VPC id in the right edge
location (that attachment may itself lack a SegmentName). -/
def get_segment_for_vpc (topo : NetworkTopology) (vpcId region : String) :
    Option String :=
  match topo.cwan_attachments.find?
      (fun att => pyEndsWith att.resource_arn vpcId && att.edge_location == some region) with
  | some att => att.segment_name
  | none => none

/-- Membership test of the destination segment in a when-sent-to spec; a
missing destination segment (Python None) is never a member of a list and
only matches the star form. -/
def segSpecMatches (spec : SegSpec) (dstSegment : Option String) : Bool :=
  match spec with
  | .star => true
  | .segs l =>
    match dstSegment with
    | some d => l.contains d
    | none => false

/-- AWSTraceroute._get_send_via_nfg: scan segment-actions for the first
send-via action from the source segment whose when-sent-to covers the
destination segment; its first network-function-group, none when that
action lists none. -/
def get_send_via_nfg (topo : NetworkTopology) (srcSegment : String)
    (dstSegment : Option String) : Option String :=
  match topo.cwan_policy_segment_actions.find?
      (fun a => a.action == "send-via" && a.segment == srcSegment
                && segSpecMatches a.when_sent_to dstSegment) with
  | some a => a.via_nfgs.head?
  | none => none

/-- The firewall hop built for a matching attachment: name from the Name
tag (default firewall), id is the last ARN component, region the edge
location, detail carries the attachment id. -/
def mkFirewallHop (att : Attachment) (seq : Nat) : Hop :=
  ⟨seq, "firewall", lastSlashComponent att.resource_arn,
   ((att.tags.lookup "Name").getD "firewall"),
   att.edge_location.getD "", [("attachment_id", some att.attachment_id)]⟩

/-- The firewall loop of _trace_via_cloudwan: every attachment serving the
NFG in the source region appends a firewall hop (the loop has no break). -/
def firewallFold (nfg region : String) :
    List Attachment → List Hop → Nat → List Hop × Nat
  | [], hops, seq => (hops, seq)
  | att :: rest, hops, seq =>
    if att.nfg_name == some nfg && att.edge_location == some region then
      firewallFold nfg region rest (hops ++ [mkFirewallHop att (seq + 1)]) (seq + 1)
    else
      firewallFold nfg region rest hops seq

/-- AWSTraceroute._trace_via_cloudwan.  Called with the result holding the
eni and route-table hops and the current hop sequence number. -/
def trace_via_cloudwan (env : TraceEnv) (result : TraceResult) (hopSeq : Nat)
    (srcEni dstEni : ENIInfo) : TraceResult :=
  let dstSegOpt := get_segment_for_vpc env.topology dstEni.vpc_id dstEni.region
  match get_segment_for_vpc env.topology srcEni.vpc_id srcEni.region with
  | none =>
    { result with blocked_reason :=
        "Source VPC " ++ srcEni.vpc_id ++ " not attached to Cloud WAN" }
  | some srcSeg =>
    let seq1 := hopSeq + 1
    let hops1 := result.hops ++
      [⟨seq1, "cloud_wan_segment", srcSeg, "segment:" ++ srcSeg, srcEni.region, []⟩]
    let afterNfg :=
      match get_send_via_nfg env.topology srcSeg dstSegOpt with
      | some nfg =>
        let hops2 := hops1 ++
          [⟨seq1 + 1, "nfg", nfg, "inspection:" ++ nfg, srcEni.region, []⟩]
        firewallFold nfg srcEni.region env.topology.cwan_attachments hops2 (seq1 + 1)
      | none => (hops1, seq1)
    let afterCross :=
      if srcEni.region ≠ dstEni.region then
        (afterNfg.1 ++
          [⟨afterNfg.2 + 1, "cloud_wan_segment", dstSegOpt.getD "unknown",
            "segment:" ++ pyOptStr dstSegOpt ++ "@" ++ dstEni.region,
            dstEni.region, []⟩],
         afterNfg.2 + 1)
      else afterNfg
    let destHop : Hop :=
      ⟨afterCross.2 + 1, "destination", dstEni.eni_id, "dst:" ++ result.dst_ip,
       dstEni.region, [("vpc_id", some dstEni.vpc_id), ("segment", dstSegOpt)]⟩
    { result with hops := afterCross.1 ++ [destHop], reachable := true }

/-- AWSTraceroute._trace_via_tgw: a tgw hop then the destination hop, no
walk of the transit gateway's own route tables. -/
def trace_via_tgw (result : TraceResult) (hopSeq : Nat)
    (srcEni dstEni : ENIInfo) (tgwId : String) : TraceResult :=
  { result with
    hops := result.hops ++
      [⟨hopSeq + 1, "tgw", tgwId, "transit-gateway", srcEni.region, []⟩,
       ⟨hopSeq + 2, "destination", dstEni.eni_id, "dst:" ++ result.dst_ip,
        dstEni.region, []⟩],
    reachable := true }

/-- AWSTraceroute.trace.  The topology is already loaded (the model's
TraceEnv holds it).  An Except.error models the ValueError that
ip_address(dst_ip) raises inside _find_best_route when the destination is
not a literal IP address; every other outcome of the code path is a
normally returned TraceResult. -/
def trace (env : TraceEnv) (srcIp dstIp : String) : Except String TraceResult :=
  let result0 : TraceResult := ⟨srcIp, dstIp, false, [], none, ""⟩
  match find_eni_cached env srcIp with
  | none =>
    .ok { result0 with blocked_reason :=
            "Source IP " ++ srcIp ++ " not found in topology" }
  | some srcEni =>
    match find_eni_cached env dstIp with
    | none =>
      .ok { result0 with blocked_reason :=
              "Destination IP " ++ dstIp ++ " not found in topology" }
    | some dstEni =>
      let hop1 : Hop :=
        ⟨1, "eni", srcEni.eni_id, "src:" ++ srcIp, srcEni.region,
         [("vpc_id", some srcEni.vpc_id), ("subnet_id", some srcEni.subnet_id)]⟩
      let srcRt := resolve_route_table env srcEni
      let hop2 : Hop := ⟨2, "route_table", srcRt.id, srcRt.name, srcEni.region, []⟩
      let result1 := { result0 with hops := [hop1, hop2] }
      match parseIPv4 dstIp with
      | none => .error ("ValueError: invalid IP address " ++ dstIp)
      | some dstAddr =>
        match find_best_route srcRt.routes dstAddr with
        | none =>
          .ok { result1 with
                blocked_reason :=
                  "No route to " ++ dstIp ++ " in route table " ++ srcRt.id,
                blocked_at := some hop2 }
        | some route =>
          if route.target == "local" && srcEni.vpc_id == dstEni.vpc_id then
            .ok { result1 with
                  hops := result1.hops ++
                    [⟨3, "destination", dstEni.eni_id, "dst:" ++ dstIp,
                      dstEni.region, []⟩],
                  reachable := true }
          else if pyTruthy route.core_network_arn then
            .ok (trace_via_cloudwan env result1 2 srcEni dstEni)
          else if pyStartsWith route.target ("tgw-") then
            .ok (trace_via_tgw result1 2 srcEni dstEni route.target)
          else
            .ok { result1 with
                  blocked_reason := "Unsupported route target: " ++ route.target }

/-! ## Concrete trace environments used by witnesses and counterexamples -/

/-- A live environment that finds nothing and a placeholder live route
table, modelling API fallbacks that yield no extra data. -/
def noLiveEni : String → Option ENIInfo := fun _ => none

/-- Placeholder live route table (the unknown table of
_get_subnet_route_table when nothing is found). -/
def unknownRt : ENIInfo → RouteTable := fun _ => ⟨"unknown", "", []⟩

/-- Base topology with nothing in it. -/
def emptyTopology : NetworkTopology :=
  ⟨"123456789012", ["eu-west-1"], [], [], [], [], [], [], [], [], []⟩

/-- Same-VPC scenario: two interfaces in vpc-a, a single local route for
10.0.0.0/16. -/
def envSameVpc : TraceEnv :=
  { topology := { emptyTopology with
      eni_index :=
        [("10.0.1.5", ⟨"eni-src", "vpc-a", "subnet-a", "eu-west-1", []⟩),
         ("10.0.1.9", ⟨"eni-dst", "vpc-a", "subnet-b", "eu-west-1", []⟩)],
      route_tables :=
        [("subnet-a", ⟨"rtb-1", "main",
            [⟨"10.0.0.0/16", "local", none, "active"⟩]⟩)] }
    liveEni := noLiveEni
    liveRouteTable := unknownRt }

/-- Same-VPC scenario with an additional, more specific transit-gateway
route covering the destination.  The claim's hypotheses (same VPC, a local
route whose CIDR covers the destination) all hold, yet the selected route
is the /24 to the TGW. -/
def envC6Cex : TraceEnv :=
  { topology := { emptyTopology with
      eni_index :=
        [("10.0.1.5", ⟨"eni-src", "vpc-a", "subnet-a", "eu-west-1", []⟩),
         ("10.0.1.9", ⟨"eni-dst", "vpc-a", "subnet-b", "eu-west-1", []⟩)],
      route_tables :=
        [("subnet-a", ⟨"rtb-1", "main",
            [⟨"10.0.0.0/16", "local", none, "active"⟩,
             ⟨"10.0.1.0/24", "tgw-0abc", none, "active"⟩]⟩)] }
    liveEni := noLiveEni
    liveRouteTable := unknownRt }

/-- No-route scenario: both addresses resolve, the only route does not
cover 172.16.0.1. -/
def envNoRoute : TraceEnv :=
  { topology := { emptyTopology with
      eni_index :=
        [("10.0.1.5", ⟨"eni-src", "vpc-a", "subnet-a", "eu-west-1", []⟩),
         ("172.16.0.1", ⟨"eni-dst", "vpc-b", "subnet-b", "eu-west-2", []⟩)],
      route_tables :=
        [("subnet-a", ⟨"rtb-1", "main",
            [⟨"10.0.0.0/16", "local", none, "active"⟩]⟩)] }
    liveEni := noLiveEni
    liveRouteTable := unknownRt }

/-- Empty environment: no address resolves anywhere. -/
def envEmpty : TraceEnv :=
  { topology := emptyTopology, liveEni := noLiveEni, liveRouteTable := unknownRt }

/-- Best route has target local and carries a core network ARN, while the
interfaces are in different VPCs: the claim's hypotheses hold but the code
takes the Cloud WAN branch, not the unsupported-target branch. -/
def envC9Cex : TraceEnv :=
  { topology := { emptyTopology with
      eni_index :=
        [("10.0.1.5", ⟨"eni-src", "vpc-a", "subnet-a", "eu-west-1", []⟩),
         ("10.9.0.7", ⟨"eni-dst", "vpc-b", "subnet-b", "eu-west-1", []⟩)],
      route_tables :=
        [("subnet-a", ⟨"rtb-1", "main",
            [⟨"10.0.0.0/8", "local",
              some "arn:aws:networkmanager::123456789012:core-network/core-network-01",
              "active"⟩]⟩)] }
    liveEni := noLiveEni
    liveRouteTable := unknownRt }

/-- Same as envC9Cex but the local route carries no core network ARN: the
unsupported-target branch is reached. -/
def envC9W : TraceEnv :=
  { topology := { emptyTopology with
      eni_index :=
        [("10.0.1.5", ⟨"eni-src", "vpc-a", "subnet-a", "eu-west-1", []⟩),
         ("10.9.0.7", ⟨"eni-dst", "vpc-b", "subnet-b", "eu-west-1", []⟩)],
      route_tables :=
        [("subnet-a", ⟨"rtb-1", "main",
            [⟨"10.0.0.0/8", "local", none, "active"⟩]⟩)] }
    liveEni := noLiveEni
    liveRouteTable := unknownRt }

/-- Cloud WAN with inspection where source and destination share a VPC and
the route target is local: every hypothesis of the claim holds (backbone
reference on the selected route, source segment resolves, a send-via action
for the segment pair names an inspection group, exactly one attachment in
the region serves it, same region), yet the local branch short-circuits. -/
def envC5Cex : TraceEnv :=
  { topology := { emptyTopology with
      eni_index :=
        [("10.1.0.5", ⟨"eni-src", "vpc-x", "sub-x", "eu-west-1", []⟩),
         ("10.1.0.9", ⟨"eni-dst", "vpc-x", "sub-z", "eu-west-1", []⟩)],
      route_tables :=
        [("sub-x", ⟨"rtb-x", "wan",
            [⟨"10.1.0.0/16", "local",
              some "arn:aws:networkmanager::123456789012:core-network/cn-1",
              "active"⟩]⟩)],
      cwan_attachments :=
        [⟨"arn:aws:ec2:eu-west-1:123456789012:vpc/vpc-x", some "eu-west-1",
          some "prod", none, "att-1", []⟩,
         ⟨"arn:aws:ec2:eu-west-1:123456789012:vpc/vpc-fw", some "eu-west-1",
          none, some "insp", "att-fw", []⟩],
      cwan_policy_segment_actions :=
        [⟨"send-via", "prod", .segs ["prod"], ["insp"]⟩] }
    liveEni := noLiveEni
    liveRouteTable := unknownRt }

/-- Cloud WAN with inspection, distinct VPCs in the same region: the
inspected six-hop path. -/
def envC5W : TraceEnv :=
  { topology := { emptyTopology with
      eni_index :=
        [("10.1.0.5", ⟨"eni-src", "vpc-x", "sub-x", "eu-west-1", []⟩),
         ("10.2.0.9", ⟨"eni-dst", "vpc-y", "sub-y", "eu-west-1", []⟩)],
      route_tables :=
        [("sub-x", ⟨"rtb-x", "wan",
            [⟨"10.2.0.0/16", "local",
              some "arn:aws:networkmanager::123456789012:core-network/cn-1",
              "active"⟩]⟩)],
      cwan_attachments :=
        [⟨"arn:aws:ec2:eu-west-1:123456789012:vpc/vpc-x", some "eu-west-1",
          some "prod", none, "att-1", []⟩,
         ⟨"arn:aws:ec2:eu-west-1:123456789012:vpc/vpc-y", some "eu-west-1",
          some "dev", none, "att-2", []⟩,
         ⟨"arn:aws:ec2:eu-west-1:123456789012:vpc/vpc-fw", some "eu-west-1",
          none, some "insp", "att-fw", [("Name", "fw-alpha")]⟩],
      cwan_policy_segment_actions :=
        [⟨"send-via", "prod", .segs ["dev"], ["insp"]⟩] }
    liveEni := noLiveEni
    liveRouteTable := unknownRt }

/-! ## Generic cache (core/cache.py) -/

/-- One persisted cache record: data, UTC write timestamp, TTL and the
account id the record was written under.  Timestamps are integer seconds;
the code stores ISO timestamps and compares elapsed seconds. -/
structure CacheRecord (α : Type) where
  data : α
  cached_at : Int
  ttl_seconds : Int
  account_id : Option String
deriving Repr, DecidableEq

/-- The account-mismatch test of Cache.get: only fires when a current
account was passed and the record carries an account id and they differ.
(The code then also deletes the cache file; the model returns the miss.)
An absent value models both a JSON null and, via Python truthiness, an
empty string. -/
def accountMismatch (recAccount currentAccount : Option String) : Bool :=
  match currentAccount, recAccount with
  | some c, some a => a != c
  | _, _ => false

/-- Cache.get: none when the file is missing, the account mismatches, or
(unless ignore_expiry) the record is older than its TTL. -/
def cache_get {α : Type} (file : Option (CacheRecord α)) (now : Int)
    (ignoreExpiry : Bool) (currentAccount : Option String) : Option α :=
  match file with
  | none => none
  | some raw =>
    if accountMismatch raw.account_id currentAccount then none
    else if ignoreExpiry = false ∧ raw.ttl_seconds < now - raw.cached_at then none
    else some raw.data

/-! ## Staleness checker (staleness.py) -/

/-- The ChangeMarkers dataclass: Cloud WAN policy version, attachment
count, and per-region transit-gateway and VPC counts. -/
structure ChangeMarkers where
  cwan_policy_version : Option Int
  cwan_attachment_count : Nat
  tgw_count : List (String × Nat)
  vpc_count : List (String × Nat)
deriving Repr, DecidableEq

/-- The dict produced by ChangeMarkers.to_dict (all four keys always
written, so from_dict's defaults never fire on a round trip). -/
structure MarkersDict where
  cwan_policy_version : Option Int
  cwan_attachment_count : Nat
  tgw_count : List (String × Nat)
  vpc_count : List (String × Nat)
deriving Repr, DecidableEq

/-- ChangeMarkers.to_dict. -/
def ChangeMarkers.to_dict (m : ChangeMarkers) : MarkersDict :=
  ⟨m.cwan_policy_version, m.cwan_attachment_count, m.tgw_count, m.vpc_count⟩

/-- ChangeMarkers.from_dict. -/
def ChangeMarkers.from_dict (d : MarkersDict) : ChangeMarkers :=
  ⟨d.cwan_policy_version, d.cwan_attachment_count, d.tgw_count, d.vpc_count⟩

/-- StalenessChecker.save_markers: Cache.set on the markers namespace with
no explicit TTL (the default applies) and no account id. -/
def save_markers (m : ChangeMarkers) (now defaultTtl : Int) :
    Option (CacheRecord MarkersDict) :=
  some ⟨m.to_dict, now, defaultTtl, none⟩

/-- StalenessChecker.get_saved_markers: Cache.get with ignore_expiry=True
and no current account. -/
def get_saved_markers (file : Option (CacheRecord MarkersDict)) (now : Int) :
    Option ChangeMarkers :=
  (cache_get file now true none).map ChangeMarkers.from_dict

/-- The Cloud WAN policy-version test of is_stale: a change only when both
values are present (is not None) and differ; yields the pair rendered into
the reason. -/
def policyChanged (savedV currentV : Option Int) : Option (Int × Int) :=
  match currentV, savedV with
  | some c, some s => if c ≠ s then some (s, c) else none
  | _, _ => none

/-- The per-region count loops of is_stale: iterate the current counts in
order; the first region whose saved count exists (the region was checked
before) and differs is reported with (region, saved, current). -/
def firstCountChange : List (String × Nat) → List (String × Nat) →
    Option (String × Nat × Nat)
  | [], _ => none
  | (region, count) :: rest, savedMap =>
    match savedMap.lookup region with
    | some savedCount =>
      if savedCount ≠ count then some (region, savedCount, count)
      else firstCountChange rest savedMap
    | none => firstCountChange rest savedMap

/-- The comparison part of StalenessChecker.is_stale, lines 116-150: four
checks in a fixed order, each short-circuiting with its reason; the
attachment-count check additionally requires both counts nonzero. -/
def is_stale_compare (saved current : ChangeMarkers) : Bool × String :=
  match policyChanged saved.cwan_policy_version current.cwan_policy_version with
  | some (s, c) =>
    (true, "Cloud WAN policy changed: " ++ toString s ++ " → " ++ toString c)
  | none =>
    if 0 < current.cwan_attachment_count ∧ 0 < saved.cwan_attachment_count ∧
        current.cwan_attachment_count ≠ saved.cwan_attachment_count then
      (true, "Attachment count changed: " ++ toString saved.cwan_attachment_count
             ++ " → " ++ toString current.cwan_attachment_count)
    else
      match firstCountChange current.tgw_count saved.tgw_count with
      | some (region, s, c) =>
        (true, "TGW count changed in " ++ region ++ ": " ++ toString s
               ++ " → " ++ toString c)
      | none =>
        match firstCountChange current.vpc_count saved.vpc_count with
        | some (region, s, c) =>
          (true, "VPC count changed in " ++ region ++ ": " ++ toString s
                 ++ " → " ++ toString c)
        | none => (false, "No changes detected")

/-- StalenessChecker.is_stale: stale with reason No markers saved when no
markers were ever saved, otherwise the marker comparison.  The current
markers (the result of get_current_markers over the requested regions) are
an input: that call is network I/O. -/
def is_stale (savedOpt : Option ChangeMarkers) (current : ChangeMarkers) :
    Bool × String :=
  match savedOpt with
  | none => (true, "No markers saved")
  | some saved => is_stale_compare saved current

/-! ## Topology cache front door (topology.py) -/

/-- The two persisted files get_cached consults: the topology namespace and
the topology_markers namespace.  The stored topology dict reconstructs the
dataclass unchanged, so the record holds the NetworkTopology itself. -/
structure TopoCacheState where
  topoFile : Option (CacheRecord NetworkTopology)
  markersFile : Option (CacheRecord MarkersDict)

/-- TopologyDiscovery.get_cached: account- and TTL-checked cache read, then
only if some markers were previously saved, a staleness check (is_stale
re-reads the same saved markers; current is the freshly fetched marker
set restricted to the saved markers' regions). -/
def get_cached (st : TopoCacheState) (now : Int) (accountId : String)
    (checkStaleness : Bool) (current : ChangeMarkers) : Option NetworkTopology :=
  match cache_get st.topoFile now false (some accountId) with
  | none => none
  | some topology =>
    if checkStaleness then
      match get_saved_markers st.markersFile now with
      | some _saved =>
        match is_stale (get_saved_markers st.markersFile now) current with
        | (true, _) => none
        | (false, _) => some topology
      | none => some topology
    else some topology

/-! ## Topology discovery (topology.py)

The discovery coroutine fans out one fetch closure per service and per
region through asyncio.gather over a thread pool and joins them; none of
the closures catches exceptions, and gather re-raises the first failure.
Each fetch is modelled by the value or error its closure would produce:
the Cloud WAN closure's parsed contribution, and per region the transit
gateway, VPC/route-table, and ENI-index contributions.  Account id and
region enumeration are taken as given inputs.  The cache writes performed
after a successful build do not affect the returned snapshot and are not
modelled here. -/

/-- Contribution of _discover_cloudwan: global and core network ids, the
parsed policy's segment-actions, and the paginated attachment list. -/
structure CloudWanData where
  global_networks : List String
  core_networks : List String
  policy_segment_actions : List SegmentAction
  attachments : List Attachment
deriving Repr, DecidableEq

/-- Contribution of one region's _discover_tgws closure: transit gateway
ids and, per transit gateway, its route table ids. -/
structure TgwRegionData where
  tgws : List String
  route_tables : List (String × List String)
deriving Repr, DecidableEq

/-- Contribution of one region's _discover_vpcs closure: VPC ids and the
parsed route tables indexed by subnet id and main:vpc-id. -/
structure VpcRegionData where
  vpcs : List String
  route_tables : List (String × RouteTable)
deriving Repr, DecidableEq

/-- The inputs of one discovery run. -/
structure DiscoveryEnv where
  account_id : String
  regions : List String
  cloudwanFetch : Except String CloudWanData
  tgwFetch : String → Except String TgwRegionData
  vpcFetch : String → Except String VpcRegionData
  eniFetch : String → Except String (List (String × EniIndexEntry))

/-- Whether an Except carries a value. -/
def exceptOk {ε α : Type} (e : Except ε α) : Bool :=
  match e with
  | .ok _ => true
  | .error _ => false

/-- asyncio.gather over one fetch per region: all contributions in region
order, or the first exception.  No closure catches anything. -/
def gatherRegions {α : Type} (f : String → Except String α) :
    List String → Except String (List (String × α))
  | [] => .ok []
  | r :: rest => do
    let d ← f r
    let ds ← gatherRegions f rest
    .ok ((r, d) :: ds)

/-- TopologyDiscovery.discover: build the snapshot from every fetch's
contribution; any failed fetch propagates out (there is no try/except
around any of them).  Regions with no transit gateways or no VPCs write no
entry, mirroring the if tgws / if vpcs guards. -/
def discover (env : DiscoveryEnv) : Except String NetworkTopology := do
  let cw ← env.cloudwanFetch
  let tgwData ← gatherRegions env.tgwFetch env.regions
  let vpcData ← gatherRegions env.vpcFetch env.regions
  let eniData ← gatherRegions env.eniFetch env.regions
  .ok
    { account_id := env.account_id
      regions := env.regions
      global_networks := cw.global_networks
      core_networks := cw.core_networks
      cwan_attachments := cw.attachments
      cwan_policy_segment_actions := cw.policy_segment_actions
      tgws := (tgwData.filter (fun p => !p.2.tgws.isEmpty)).map
        (fun p => (p.1, p.2.tgws))
      tgw_route_tables := (tgwData.map (fun p => p.2.route_tables)).flatten
      vpcs := (vpcData.filter (fun p => !p.2.vpcs.isEmpty)).map
        (fun p => (p.1, p.2.vpcs))
      route_tables := (vpcData.map (fun p => p.2.route_tables)).flatten
      eni_index := (eniData.map (fun p => p.2)).flatten }

/-! ## Concrete discovery and cache states for witnesses and counterexamples -/

/-- An empty but successful Cloud WAN contribution. -/
def okCloudWan : CloudWanData := ⟨[], [], [], []⟩

/-- Discovery inputs where a single region's transit-gateway fetch fails
and every other fetch succeeds. -/
def c1CexEnv : DiscoveryEnv :=
  { account_id := "123456789012"
    regions := ["us-east-1", "eu-west-1"]
    cloudwanFetch := .ok okCloudWan
    tgwFetch := fun r =>
      if r == "eu-west-1" then .error "UnauthorizedOperation"
      else .ok ⟨["tgw-0abc"], [("tgw-0abc", ["tgw-rtb-1"])]⟩
    vpcFetch := fun _ => .ok ⟨["vpc-1"], []⟩
    eniFetch := fun _ => .ok [] }

/-- The same inputs with every fetch succeeding. -/
def c1OkEnv : DiscoveryEnv :=
  { c1CexEnv with tgwFetch := fun _ => .ok ⟨["tgw-0abc"], [("tgw-0abc", ["tgw-rtb-1"])]⟩ }

/-- Saved markers whose only observation is a zero transit-gateway count
for eu-west-1. -/
def saved4 : ChangeMarkers := ⟨none, 0, [("eu-west-1", 0)], []⟩

/-- Current markers for the same region with two transit gateways. -/
def current4 : ChangeMarkers := ⟨none, 0, [("eu-west-1", 2)], []⟩

/-- Current markers with nothing observed. -/
def blankMarkers : ChangeMarkers := ⟨none, 0, [], []⟩

/-- Cache state with a fresh, account-matching topology snapshot and no
saved markers. -/
def c3State : TopoCacheState :=
  ⟨some ⟨emptyTopology, 0, 900, some "123456789012"⟩, none⟩

/-- A demonstration route list: a covering /8, a blackholed /24 and an
active /24 both covering the address. -/
def demoC2Routes : List RouteEntry :=
  [⟨"10.0.0.0/8", "local", none, "active"⟩,
   ⟨"10.0.1.0/24", "tgw-0dead", none, "blackhole"⟩,
   ⟨"10.0.1.0/24", "tgw-0beef", none, "active"⟩]

/-- The active /24 of demoC2Routes. -/
def demoC2Best : RouteEntry := ⟨"10.0.1.0/24", "tgw-0beef", none, "active"⟩

/-! ## Longest-prefix-match: correctness of _find_best_route -/

/-- Invariant-carrying specification of the selection loop.  Run with an
accumulator that is either empty (best_prefix_len -1) or a matching route
carrying its own prefix length, the loop returns none only from an empty
accumulator over a matchless list; a returned route matches, dominates
every matching route of the list, and is either the accumulator itself or
sits in the list strictly after only matching routes of strictly smaller
prefix length. -/
theorem findBestLoop_spec (dst : Nat) :
    ∀ (routes : List RouteEntry) (best : Option RouteEntry) (bestLen : Int),
    (best = none → bestLen = -1) →
    (∀ b, best = some b →
        routeMatches dst b = true ∧ (routePrefixLen b : Int) = bestLen) →
    (findBestLoop dst routes best bestLen = none →
       best = none ∧ ∀ r ∈ routes, routeMatches dst r = false) ∧
    (∀ b', findBestLoop dst routes best bestLen = some b' →
       routeMatches dst b' = true ∧
       bestLen ≤ (routePrefixLen b' : Int) ∧
       (∀ r ∈ routes, routeMatches dst r = true →
          (routePrefixLen r : Int) ≤ (routePrefixLen b' : Int)) ∧
       (findBestLoop dst routes best bestLen = best ∨
        ∃ l1 l2, routes = l1 ++ b' :: l2 ∧
          bestLen < (routePrefixLen b' : Int) ∧
          ∀ r ∈ l1, routeMatches dst r = true →
            (routePrefixLen r : Int) < (routePrefixLen b' : Int))) := by
  intro routes
  induction routes with
  | nil =>
    intro best bestLen hnone hsome
    constructor
    · intro h
      exact ⟨h, by simp⟩
    · intro b' h
      obtain ⟨hm, hl⟩ := hsome b' h
      exact ⟨hm, le_of_eq hl.symm, by simp, Or.inl rfl⟩
  | cons r rest ih =>
    intro best bestLen hnone hsome
    by_cases hg : routeMatches dst r = true ∧ (routePrefixLen r : Int) > bestLen
    · have hstep : findBestLoop dst (r :: rest) best bestLen
          = findBestLoop dst rest (some r) (routePrefixLen r) := by
        simp only [findBestLoop]
        rw [if_pos hg]
      have ih' := ih (some r) (routePrefixLen r)
        (by intro h; cases h)
        (by intro b hb; cases hb; exact ⟨hg.1, rfl⟩)
      constructor
      · intro h
        rw [hstep] at h
        exact absurd (ih'.1 h).1 (by simp)
      · intro b' h
        rw [hstep] at h
        obtain ⟨hm, hge, hmax, hpos⟩ := ih'.2 b' h
        refine ⟨hm, le_of_lt (lt_of_lt_of_le hg.2 hge), ?_, ?_⟩
        · intro q hq hmq
          rcases List.mem_cons.mp hq with hq | hq
          · subst hq
            exact hge
          · exact hmax q hq hmq
        · rcases hpos with hpos | ⟨l1, l2, hsplit, hlt, hsmall⟩
          · obtain rfl : b' = r := by
              rw [h] at hpos
              exact Option.some.inj hpos
            exact Or.inr ⟨[], rest, rfl, hg.2, by simp⟩
          · refine Or.inr ⟨r :: l1, l2, by rw [hsplit, List.cons_append], lt_trans hg.2 hlt, ?_⟩
            intro q hq hmq
            rcases List.mem_cons.mp hq with hq | hq
            · subst hq
              exact hlt
            · exact hsmall q hq hmq
    · have hstep : findBestLoop dst (r :: rest) best bestLen
          = findBestLoop dst rest best bestLen := by
        simp only [findBestLoop]
        rw [if_neg hg]
      have ih' := ih best bestLen hnone hsome
      constructor
      · intro h
        rw [hstep] at h
        obtain ⟨hb, hall⟩ := ih'.1 h
        refine ⟨hb, ?_⟩
        intro q hq
        rcases List.mem_cons.mp hq with hq | hq
        · subst hq
          by_contra hcon
          have hq' : routeMatches dst q = true := by
            cases hmq : routeMatches dst q
            · exact absurd hmq hcon
            · rfl
          have : (routePrefixLen q : Int) > bestLen := by
            rw [hnone hb]
            have : (0 : Int) ≤ (routePrefixLen q : Int) := Int.ofNat_nonneg _
            omega
          exact hg ⟨hq', this⟩
        · exact hall q hq
      · intro b' h
        rw [hstep] at h
        obtain ⟨hm, hge, hmax, hpos⟩ := ih'.2 b' h
        refine ⟨hm, hge, ?_, ?_⟩
        · intro q hq hmq
          rcases List.mem_cons.mp hq with hq | hq
          · subst hq
            have : ¬ (routePrefixLen q : Int) > bestLen := fun hc => hg ⟨hmq, hc⟩
            omega
          · exact hmax q hq hmq
        · rcases hpos with hpos | ⟨l1, l2, hsplit, hlt, hsmall⟩
          · exact Or.inl (hstep.trans hpos)
          · refine Or.inr ⟨r :: l1, l2, by rw [hsplit, List.cons_append], hlt, ?_⟩
            intro q hq hmq
            rcases List.mem_cons.mp hq with hq | hq
            · subst hq
              have : ¬ (routePrefixLen q : Int) > bestLen := fun hc => hg ⟨hmq, hc⟩
              omega
            · exact hsmall q hq hmq

/-- If no route of the list matches the destination, selection returns
nothing (shared helper, used both for the selection claim and the blocked
branch of trace). -/
theorem find_best_route_eq_none (routes : List RouteEntry) (dst : Nat)
    (h : ∀ r ∈ routes, routeMatches dst r = false) :
    find_best_route routes dst = none := by
  cases hr : find_best_route routes dst with
  | none => rfl
  | some b =>
    have spec := findBestLoop_spec dst routes none (-1)
      (fun _ => rfl) (fun b hb => by cases hb)
    obtain ⟨hm, _, _, hpos⟩ := spec.2 b hr
    rcases hpos with hpos | ⟨l1, l2, hsplit, _, _⟩
    · exact absurd (hr ▸ hpos : (some b : Option RouteEntry) = none) (by simp)
    · have hb : b ∈ routes := by
        rw [hsplit]
        exact List.mem_append.mpr (Or.inr (List.mem_cons_self _ _))
      rw [h b hb] at hm
      cases hm

/-- C2: for every route list and destination address, _find_best_route
returns a non-blackhole entry whose destination CIDR contains the address
and whose prefix length is maximal among all containing entries; when two
containing entries have the same maximal prefix length the one appearing
earlier in the list is returned (every matching entry before the returned
one has strictly smaller prefix length); when no non-blackhole entry
contains the address, no route is returned. -/
theorem find_best_route_longest_match (routes : List RouteEntry) (dst : Nat) :
    (find_best_route routes dst = none ↔
       ∀ r ∈ routes, routeMatches dst r = false) ∧
    (∀ b, find_best_route routes dst = some b →
       routeMatches dst b = true ∧
       (∀ r ∈ routes, routeMatches dst r = true →
          routePrefixLen r ≤ routePrefixLen b) ∧
       ∃ l1 l2, routes = l1 ++ b :: l2 ∧
         ∀ r ∈ l1, routeMatches dst r = true →
           routePrefixLen r < routePrefixLen b) := by
  have spec := findBestLoop_spec dst routes none (-1)
    (fun _ => rfl) (fun b hb => by cases hb)
  constructor
  · constructor
    · intro h
      exact (spec.1 h).2
    · intro h
      exact find_best_route_eq_none routes dst h
  · intro b h
    have h' : findBestLoop dst routes none (-1) = some b := h
    obtain ⟨hm, _, hmax, hpos⟩ := spec.2 b h'
    refine ⟨hm, ?_, ?_⟩
    · intro r hr hmr
      exact_mod_cast hmax r hr hmr
    · rcases hpos with hpos | ⟨l1, l2, hsplit, _, hsmall⟩
      · exact absurd (h'.symm.trans hpos) (by simp)
      · refine ⟨l1, l2, hsplit, ?_⟩
        intro r hr hmr
        exact_mod_cast hsmall r hr hmr

/-- Witness for C2 at a concrete table: the selected route is the active
/24 and it dominates the covering /8. -/
theorem find_best_route_longest_match_witness :
    find_best_route demoC2Routes 167772421 = some demoC2Best ∧
    routeMatches 167772421 demoC2Best = true ∧
    routePrefixLen ⟨"10.0.0.0/8", "local", none, "active"⟩ ≤ routePrefixLen demoC2Best := by
  have h := (find_best_route_longest_match demoC2Routes 167772421).2 demoC2Best
    (by decide)
  exact ⟨by decide, h.1, h.2.1 _ (by decide) (by decide)⟩

/-! ## The trace engine's blocked and unresolved outcomes -/

/-- C8: when either address resolves to no interface record (absent from
the snapshot's index and from the live fallback), trace terminates normally
with zero hops, reachable false, and a blocked_reason naming the missing
address. -/
theorem trace_unresolved_address (env : TraceEnv) (srcIp dstIp : String) :
    (find_eni_cached env srcIp = none →
       trace env srcIp dstIp =
         .ok ⟨srcIp, dstIp, false, [], none,
              "Source IP " ++ srcIp ++ " not found in topology"⟩) ∧
    (∀ srcEni, find_eni_cached env srcIp = some srcEni →
       find_eni_cached env dstIp = none →
       trace env srcIp dstIp =
         .ok ⟨srcIp, dstIp, false, [], none,
              "Destination IP " ++ dstIp ++ " not found in topology"⟩) := by
  constructor
  · intro h
    simp only [trace, h]
  · intro srcEni h1 h2
    simp only [trace, h1, h2]

/-- Witness for C8 on the empty environment. -/
theorem trace_unresolved_address_witness :
    trace envEmpty ("10.0.1.5") ("10.0.1.9") =
      .ok ⟨"10.0.1.5", "10.0.1.9", false, [], none,
           "Source IP 10.0.1.5 not found in topology"⟩ :=
  (trace_unresolved_address envEmpty ("10.0.1.5") ("10.0.1.9")).1 rfl

/-- C7: when both addresses resolve but no non-blackhole route of the
resolved source table contains the destination address, trace returns
normally with exactly the eni and route-table hops, reachable false,
blocked_at the route-table hop, and a reason naming the destination and
the table id. -/
theorem trace_no_route_blocked (env : TraceEnv) (srcIp dstIp : String)
    (srcEni dstEni : ENIInfo) (dstAddr : Nat)
    (h1 : find_eni_cached env srcIp = some srcEni)
    (h2 : find_eni_cached env dstIp = some dstEni)
    (hp : parseIPv4 dstIp = some dstAddr)
    (hnm : ∀ r ∈ (resolve_route_table env srcEni).routes,
        routeMatches dstAddr r = false) :
    trace env srcIp dstIp =
      .ok ⟨srcIp, dstIp, false,
           [⟨1, "eni", srcEni.eni_id, "src:" ++ srcIp, srcEni.region,
             [("vpc_id", some srcEni.vpc_id), ("subnet_id", some srcEni.subnet_id)]⟩,
            ⟨2, "route_table", (resolve_route_table env srcEni).id,
             (resolve_route_table env srcEni).name, srcEni.region, []⟩],
           some ⟨2, "route_table", (resolve_route_table env srcEni).id,
             (resolve_route_table env srcEni).name, srcEni.region, []⟩,
           "No route to " ++ dstIp ++ " in route table "
             ++ (resolve_route_table env srcEni).id⟩ := by
  have hr := find_best_route_eq_none _ dstAddr hnm
  simp only [trace, h1, h2, hp, hr]

/-- Witness for C7 on the concrete no-route environment. -/
theorem trace_no_route_blocked_witness :
    trace envNoRoute ("10.0.1.5") ("172.16.0.1") =
      .ok ⟨"10.0.1.5", "172.16.0.1", false,
           [⟨1, "eni", "eni-src", "src:10.0.1.5", "eu-west-1",
             [("vpc_id", some "vpc-a"), ("subnet_id", some "subnet-a")]⟩,
            ⟨2, "route_table", "rtb-1", "main", "eu-west-1", []⟩],
           some ⟨2, "route_table", "rtb-1", "main", "eu-west-1", []⟩,
           "No route to 172.16.0.1 in route table rtb-1"⟩ := by
  have h := trace_no_route_blocked envNoRoute ("10.0.1.5") ("172.16.0.1")
    ⟨"eni-src", "10.0.1.5", "vpc-a", "subnet-a", "eu-west-1", []⟩
    ⟨"eni-dst", "172.16.0.1", "vpc-b", "subnet-b", "eu-west-2", []⟩
    2886729729 rfl rfl rfl (by decide)
  simpa using h

/-- C6 counterexample: an environment satisfying every hypothesis of the
claim (both addresses resolve to interfaces of the same VPC, the source's
route table contains a local route whose CIDR covers the destination), on
which trace returns four hops, not three: a more specific transit-gateway
route wins the longest-prefix match, so containing a covering local route
does not imply the three-hop local path. -/
theorem trace_local_covering_route_four_hops :
    find_eni_cached envC6Cex ("10.0.1.5") =
      some ⟨"eni-src", "10.0.1.5", "vpc-a", "subnet-a", "eu-west-1", []⟩ ∧
    find_eni_cached envC6Cex ("10.0.1.9") =
      some ⟨"eni-dst", "10.0.1.9", "vpc-a", "subnet-b", "eu-west-1", []⟩ ∧
    (⟨"10.0.0.0/16", "local", none, "active"⟩ : RouteEntry) ∈
      (resolve_route_table envC6Cex
        ⟨"eni-src", "10.0.1.5", "vpc-a", "subnet-a", "eu-west-1", []⟩).routes ∧
    parseIPv4 ("10.0.1.9") = some 167772425 ∧
    routeMatches 167772425 ⟨"10.0.0.0/16", "local", none, "active"⟩ = true ∧
    (trace envC6Cex ("10.0.1.5") ("10.0.1.9")).toOption.map
      (fun r => (r.hops.map Hop.type, r.hops.length, r.reachable)) =
      some (["eni", "route_table", "tgw", "destination"], 4, true) := by
  refine ⟨rfl, rfl, by decide, by decide, by decide, by decide⟩

/-- C6 as amended: when both addresses resolve to interfaces of the same
VPC and the route selected by longest-prefix match from the source's
resolved table has target local, trace returns reachable true with exactly
the three hops eni, route_table, destination. -/
theorem trace_local_same_vpc (env : TraceEnv) (srcIp dstIp : String)
    (srcEni dstEni : ENIInfo) (route : RouteEntry) (dstAddr : Nat)
    (h1 : find_eni_cached env srcIp = some srcEni)
    (h2 : find_eni_cached env dstIp = some dstEni)
    (hv : srcEni.vpc_id = dstEni.vpc_id)
    (hp : parseIPv4 dstIp = some dstAddr)
    (hr : find_best_route (resolve_route_table env srcEni).routes dstAddr
            = some route)
    (ht : route.target = "local") :
    trace env srcIp dstIp =
      .ok ⟨srcIp, dstIp, true,
           [⟨1, "eni", srcEni.eni_id, "src:" ++ srcIp, srcEni.region,
             [("vpc_id", some srcEni.vpc_id), ("subnet_id", some srcEni.subnet_id)]⟩,
            ⟨2, "route_table", (resolve_route_table env srcEni).id,
             (resolve_route_table env srcEni).name, srcEni.region, []⟩,
            ⟨3, "destination", dstEni.eni_id, "dst:" ++ dstIp, dstEni.region, []⟩],
           none, ""⟩ := by
  have hcond : (route.target == "local" && srcEni.vpc_id == dstEni.vpc_id) = true := by
    rw [ht, hv]
    simp
  simp only [trace, h1, h2, hp, hr, hcond]
  simp

/-- Witness for the amended C6 on the concrete same-VPC environment. -/
theorem trace_local_same_vpc_witness :
    trace envSameVpc ("10.0.1.5") ("10.0.1.9") =
      .ok ⟨"10.0.1.5", "10.0.1.9", true,
           [⟨1, "eni", "eni-src", "src:10.0.1.5", "eu-west-1",
             [("vpc_id", some "vpc-a"), ("subnet_id", some "subnet-a")]⟩,
            ⟨2, "route_table", "rtb-1", "main", "eu-west-1", []⟩,
            ⟨3, "destination", "eni-dst", "dst:10.0.1.9", "eu-west-1", []⟩],
           none, ""⟩ := by
  have h := trace_local_same_vpc envSameVpc ("10.0.1.5") ("10.0.1.9")
    ⟨"eni-src", "10.0.1.5", "vpc-a", "subnet-a", "eu-west-1", []⟩
    ⟨"eni-dst", "10.0.1.9", "vpc-a", "subnet-b", "eu-west-1", []⟩
    ⟨"10.0.0.0/16", "local", none, "active"⟩
    167772425 rfl rfl rfl rfl (by decide) rfl
  simpa using h

/-- C9 counterexample: the selected best route has target local and the
two interfaces are in different VPCs, but because the route also carries a
core network ARN the engine takes the Cloud WAN branch, not the
unsupported-target branch: the blocked reason is about Cloud WAN
attachment, not the claimed Unsupported route target: local. -/
theorem trace_local_cross_vpc_cloudwan_branch :
    find_eni_cached envC9Cex ("10.0.1.5") =
      some ⟨"eni-src", "10.0.1.5", "vpc-a", "subnet-a", "eu-west-1", []⟩ ∧
    find_eni_cached envC9Cex ("10.9.0.7") =
      some ⟨"eni-dst", "10.9.0.7", "vpc-b", "subnet-b", "eu-west-1", []⟩ ∧
    (find_best_route (resolve_route_table envC9Cex
        ⟨"eni-src", "10.0.1.5", "vpc-a", "subnet-a", "eu-west-1", []⟩).routes
        168361991).map RouteEntry.target = some "local" ∧
    (trace envC9Cex ("10.0.1.5") ("10.9.0.7")).toOption.map
      (fun r => (r.reachable, r.blocked_reason)) =
      some (false, "Source VPC vpc-a not attached to Cloud WAN") ∧
    "Source VPC vpc-a not attached to Cloud WAN" ≠
      "Unsupported route target: local" := by
  refine ⟨rfl, rfl, by decide, by decide, by decide⟩

/-- C9 as amended: when the selected best route has target local, carries
no truthy core network ARN, and the interfaces are in different VPCs, trace
returns reachable false with blocked_reason Unsupported route target:
local, only the eni and route-table hops, and blocked_at unset. -/
theorem trace_unsupported_local_target (env : TraceEnv) (srcIp dstIp : String)
    (srcEni dstEni : ENIInfo) (route : RouteEntry) (dstAddr : Nat)
    (h1 : find_eni_cached env srcIp = some srcEni)
    (h2 : find_eni_cached env dstIp = some dstEni)
    (hv : srcEni.vpc_id ≠ dstEni.vpc_id)
    (hp : parseIPv4 dstIp = some dstAddr)
    (hr : find_best_route (resolve_route_table env srcEni).routes dstAddr
            = some route)
    (ht : route.target = "local")
    (ha : pyTruthy route.core_network_arn = false) :
    trace env srcIp dstIp =
      .ok ⟨srcIp, dstIp, false,
           [⟨1, "eni", srcEni.eni_id, "src:" ++ srcIp, srcEni.region,
             [("vpc_id", some srcEni.vpc_id), ("subnet_id", some srcEni.subnet_id)]⟩,
            ⟨2, "route_table", (resolve_route_table env srcEni).id,
             (resolve_route_table env srcEni).name, srcEni.region, []⟩],
           none, "Unsupported route target: local"⟩ := by
  have hcond : (route.target == "local" && srcEni.vpc_id == dstEni.vpc_id) = false := by
    have : (srcEni.vpc_id == dstEni.vpc_id) = false := by
      simp [hv]
    simp [this]
  have hsw : pyStartsWith route.target ("tgw-") = false := by
    rw [ht]
    decide
  simp only [trace, h1, h2, hp, hr, hcond, ha, hsw]
  simp [ht]

/-- Witness for the amended C9 on the concrete cross-VPC environment. -/
theorem trace_unsupported_local_target_witness :
    trace envC9W ("10.0.1.5") ("10.9.0.7") =
      .ok ⟨"10.0.1.5", "10.9.0.7", false,
           [⟨1, "eni", "eni-src", "src:10.0.1.5", "eu-west-1",
             [("vpc_id", some "vpc-a"), ("subnet_id", some "subnet-a")]⟩,
            ⟨2, "route_table", "rtb-1", "main", "eu-west-1", []⟩],
           none, "Unsupported route target: local"⟩ := by
  have h := trace_unsupported_local_target envC9W ("10.0.1.5") ("10.9.0.7")
    ⟨"eni-src", "10.0.1.5", "vpc-a", "subnet-a", "eu-west-1", []⟩
    ⟨"eni-dst", "10.9.0.7", "vpc-b", "subnet-b", "eu-west-1", []⟩
    ⟨"10.0.0.0/8", "local", none, "active"⟩
    168361991 rfl rfl (by decide) rfl (by decide) rfl rfl
  simpa using h

/-! ## Cloud WAN inspection path -/

/-- When no attachment serves the inspection group in the region, the
firewall loop appends nothing. -/
theorem firewallFold_empty (nfg region : String) :
    ∀ (atts : List Attachment) (hops : List Hop) (seq : Nat),
    atts.filter (fun a => a.nfg_name == some nfg && a.edge_location == some region)
      = [] →
    firewallFold nfg region atts hops seq = (hops, seq) := by
  intro atts
  induction atts with
  | nil =>
    intro hops seq _
    rfl
  | cons a rest ih =>
    intro hops seq h
    by_cases hp : (a.nfg_name == some nfg && a.edge_location == some region) = true
    · simp only [List.filter_cons] at h
      rw [if_pos hp] at h
      cases h
    · simp only [List.filter_cons] at h
      rw [if_neg hp] at h
      simp only [firewallFold]
      rw [if_neg hp]
      exact ih hops seq h

/-- When exactly one attachment serves the inspection group in the region,
the firewall loop appends exactly its firewall hop and advances the
sequence number once. -/
theorem firewallFold_single (nfg region : String) :
    ∀ (atts : List Attachment) (hops : List Hop) (seq : Nat) (att : Attachment),
    atts.filter (fun a => a.nfg_name == some nfg && a.edge_location == some region)
      = [att] →
    firewallFold nfg region atts hops seq
      = (hops ++ [mkFirewallHop att (seq + 1)], seq + 1) := by
  intro atts
  induction atts with
  | nil =>
    intro hops seq att h
    cases h
  | cons a rest ih =>
    intro hops seq att h
    by_cases hp : (a.nfg_name == some nfg && a.edge_location == some region) = true
    · simp only [List.filter_cons] at h
      rw [if_pos hp] at h
      injection h with h1 h2
      subst h1
      simp only [firewallFold]
      rw [if_pos hp]
      exact firewallFold_empty nfg region rest _ _ h2
    · simp only [List.filter_cons] at h
      rw [if_neg hp] at h
      simp only [firewallFold]
      rw [if_neg hp]
      exact ih hops seq att h

/-- C5 counterexample: an environment satisfying every hypothesis of the
claim (the selected route carries a truthy core network ARN, the source
VPC's attachment resolves to a segment, a send-via action for the segment
pair names an inspection group, exactly one attachment in the region serves
it, source and destination share the region) on which trace nevertheless
returns the three-hop local path: source and destination share a VPC and
the route's target is local, so the local branch short-circuits before the
Cloud WAN branch is consulted and no six-hop inspected path is built. -/
theorem trace_cloudwan_inspection_shortcut :
    find_eni_cached envC5Cex ("10.1.0.5") =
      some ⟨"eni-src", "10.1.0.5", "vpc-x", "sub-x", "eu-west-1", []⟩ ∧
    find_eni_cached envC5Cex ("10.1.0.9") =
      some ⟨"eni-dst", "10.1.0.9", "vpc-x", "sub-z", "eu-west-1", []⟩ ∧
    find_best_route (resolve_route_table envC5Cex
        ⟨"eni-src", "10.1.0.5", "vpc-x", "sub-x", "eu-west-1", []⟩).routes
        167837705 =
      some ⟨"10.1.0.0/16", "local",
        some "arn:aws:networkmanager::123456789012:core-network/cn-1", "active"⟩ ∧
    pyTruthy (some "arn:aws:networkmanager::123456789012:core-network/cn-1") = true ∧
    get_segment_for_vpc envC5Cex.topology ("vpc-x") ("eu-west-1") = some "prod" ∧
    get_send_via_nfg envC5Cex.topology ("prod") (some "prod") = some "insp" ∧
    envC5Cex.topology.cwan_attachments.filter
      (fun a => a.nfg_name == some "insp" && a.edge_location == some "eu-west-1") =
      [⟨"arn:aws:ec2:eu-west-1:123456789012:vpc/vpc-fw", some "eu-west-1",
        none, some "insp", "att-fw", []⟩] ∧
    (trace envC5Cex ("10.1.0.5") ("10.1.0.9")).toOption.map
      (fun r => (r.hops.map Hop.type, r.hops.length)) =
      some (["eni", "route_table", "destination"], 3) := by
  refine ⟨rfl, rfl, by decide, by decide, by decide, by decide, by decide, by decide⟩

/-- C5 as amended: when the selected route carries a truthy core network
ARN, the same-VPC local shortcut does not apply, the source and destination
VPC attachments resolve to segments, the send-via lookup for the pair names
an inspection group, exactly one attachment in the source region serves it,
and the regions coincide, trace returns reachable true with exactly the six
hops eni, route_table, cloud_wan_segment, nfg, firewall, destination, the
firewall hop carrying the serving attachment's id. -/
theorem trace_cloudwan_inspection (env : TraceEnv) (srcIp dstIp : String)
    (srcEni dstEni : ENIInfo) (route : RouteEntry) (dstAddr : Nat)
    (srcSeg dstSeg nfg : String) (fwAtt : Attachment)
    (h1 : find_eni_cached env srcIp = some srcEni)
    (h2 : find_eni_cached env dstIp = some dstEni)
    (hp : parseIPv4 dstIp = some dstAddr)
    (hr : find_best_route (resolve_route_table env srcEni).routes dstAddr
            = some route)
    (ha : pyTruthy route.core_network_arn = true)
    (hnl : ¬(route.target = "local" ∧ srcEni.vpc_id = dstEni.vpc_id))
    (hseg : get_segment_for_vpc env.topology srcEni.vpc_id srcEni.region
              = some srcSeg)
    (hdseg : get_segment_for_vpc env.topology dstEni.vpc_id dstEni.region
              = some dstSeg)
    (hnfg : get_send_via_nfg env.topology srcSeg (some dstSeg) = some nfg)
    (hfw : env.topology.cwan_attachments.filter
        (fun a => a.nfg_name == some nfg && a.edge_location == some srcEni.region)
        = [fwAtt])
    (hreg : srcEni.region = dstEni.region) :
    trace env srcIp dstIp =
      .ok ⟨srcIp, dstIp, true,
           [⟨1, "eni", srcEni.eni_id, "src:" ++ srcIp, srcEni.region,
             [("vpc_id", some srcEni.vpc_id), ("subnet_id", some srcEni.subnet_id)]⟩,
            ⟨2, "route_table", (resolve_route_table env srcEni).id,
             (resolve_route_table env srcEni).name, srcEni.region, []⟩,
            ⟨3, "cloud_wan_segment", srcSeg, "segment:" ++ srcSeg, srcEni.region, []⟩,
            ⟨4, "nfg", nfg, "inspection:" ++ nfg, srcEni.region, []⟩,
            mkFirewallHop fwAtt 5,
            ⟨6, "destination", dstEni.eni_id, "dst:" ++ dstIp, dstEni.region,
             [("vpc_id", some dstEni.vpc_id), ("segment", some dstSeg)]⟩],
           none, ""⟩ := by
  have hcond : (route.target == "local" && srcEni.vpc_id == dstEni.vpc_id) = false := by
    by_cases hteq : route.target = "local"
    · have hv : srcEni.vpc_id ≠ dstEni.vpc_id := fun hc => hnl ⟨hteq, hc⟩
      simp [hv]
    · simp [hteq]
  simp only [trace, h1, h2, hp, hr, hcond, ha]
  simp only [trace_via_cloudwan, hseg, hdseg, hnfg]
  rw [firewallFold_single nfg srcEni.region env.topology.cwan_attachments _ _ fwAtt hfw]
  simp [hreg]

/-- Witness for the amended C5 on the concrete inspected environment. -/
theorem trace_cloudwan_inspection_witness :
    trace envC5W ("10.1.0.5") ("10.2.0.9") =
      .ok ⟨"10.1.0.5", "10.2.0.9", true,
           [⟨1, "eni", "eni-src", "src:10.1.0.5", "eu-west-1",
             [("vpc_id", some "vpc-x"), ("subnet_id", some "sub-x")]⟩,
            ⟨2, "route_table", "rtb-x", "wan", "eu-west-1", []⟩,
            ⟨3, "cloud_wan_segment", "prod", "segment:prod", "eu-west-1", []⟩,
            ⟨4, "nfg", "insp", "inspection:insp", "eu-west-1", []⟩,
            ⟨5, "firewall", "vpc-fw", "fw-alpha", "eu-west-1",
             [("attachment_id", some "att-fw")]⟩,
            ⟨6, "destination", "eni-dst", "dst:10.2.0.9", "eu-west-1",
             [("vpc_id", some "vpc-y"), ("segment", some "dev")]⟩],
           none, ""⟩ := by
  have h := trace_cloudwan_inspection envC5W ("10.1.0.5") ("10.2.0.9")
    ⟨"eni-src", "10.1.0.5", "vpc-x", "sub-x", "eu-west-1", []⟩
    ⟨"eni-dst", "10.2.0.9", "vpc-y", "sub-y", "eu-west-1", []⟩
    ⟨"10.2.0.0/16", "local",
      some "arn:aws:networkmanager::123456789012:core-network/cn-1", "active"⟩
    167903241 ("prod") ("dev") ("insp")
    ⟨"arn:aws:ec2:eu-west-1:123456789012:vpc/vpc-fw", some "eu-west-1",
      none, some "insp", "att-fw", [("Name", "fw-alpha")]⟩
    rfl rfl rfl (by decide) rfl (by decide) rfl rfl rfl (by decide) rfl
  simpa using h

/-! ## Discovery error propagation -/

/-- A failed first step makes the whole Except chain fail. -/
theorem exceptOk_error_bind {α β : Type} (e : String) (k : α → Except String β) :
    exceptOk ((Except.error e : Except String α) >>= k) = false := rfl

/-- A successful first step hands the chain to its continuation. -/
theorem exceptOk_ok_bind {α β : Type} (a : α) (k : α → Except String β) :
    exceptOk ((Except.ok a : Except String α) >>= k) = exceptOk (k a) := rfl

/-- The fan-out over regions succeeds exactly when every region's fetch
succeeds. -/
theorem gatherRegions_ok {α : Type} (f : String → Except String α)
    (rs : List String) :
    exceptOk (gatherRegions f rs) = rs.all (fun r => exceptOk (f r)) := by
  induction rs with
  | nil => rfl
  | cons r rest ih =>
    simp only [gatherRegions, List.all_cons]
    cases hf : f r with
    | error e =>
      rw [exceptOk_error_bind]
      rfl
    | ok d =>
      rw [exceptOk_ok_bind]
      cases hg : gatherRegions f rest with
      | error e' =>
        rw [hg] at ih
        rw [exceptOk_error_bind, ← ih]
        rfl
      | ok ds =>
        rw [hg] at ih
        rw [exceptOk_ok_bind, ← ih]
        rfl

/-- C1 as amended: no fetch failure is caught during discovery: discover
returns a snapshot exactly when the Cloud WAN fetch and every region's
transit-gateway, VPC and ENI fetches all succeed; any single failing fetch
makes discover propagate the error to the caller instead of completing
with a partial snapshot. -/
theorem discover_ok_iff_all_fetches_ok (env : DiscoveryEnv) :
    exceptOk (discover env) =
      (exceptOk env.cloudwanFetch &&
       env.regions.all (fun r => exceptOk (env.tgwFetch r)) &&
       env.regions.all (fun r => exceptOk (env.vpcFetch r)) &&
       env.regions.all (fun r => exceptOk (env.eniFetch r))) := by
  simp only [discover]
  cases hc : env.cloudwanFetch with
  | error e =>
    rw [exceptOk_error_bind]
    rfl
  | ok cw =>
    rw [exceptOk_ok_bind]
    cases h1 : gatherRegions env.tgwFetch env.regions with
    | error e =>
      have ht := gatherRegions_ok env.tgwFetch env.regions
      rw [h1] at ht
      rw [exceptOk_error_bind, ← ht]
      rfl
    | ok tgwData =>
      rw [exceptOk_ok_bind]
      have ht := gatherRegions_ok env.tgwFetch env.regions
      rw [h1] at ht
      cases h2 : gatherRegions env.vpcFetch env.regions with
      | error e =>
        have hv := gatherRegions_ok env.vpcFetch env.regions
        rw [h2] at hv
        rw [exceptOk_error_bind, ← ht, ← hv]
        rfl
      | ok vpcData =>
        rw [exceptOk_ok_bind]
        have hv := gatherRegions_ok env.vpcFetch env.regions
        rw [h2] at hv
        cases h3 : gatherRegions env.eniFetch env.regions with
        | error e =>
          have he := gatherRegions_ok env.eniFetch env.regions
          rw [h3] at he
          rw [exceptOk_error_bind, ← ht, ← hv, ← he]
          rfl
        | ok eniData =>
          have he := gatherRegions_ok env.eniFetch env.regions
          rw [h3] at he
          rw [exceptOk_ok_bind, ← ht, ← hv, ← he]
          rfl

/-- C1 counterexample: every fetch succeeds except the transit-gateway
fetch of one region; discover raises (returns the error) rather than
completing with a snapshot that is correct for the other region, so a
single-region fetch failure is not caught locally. -/
theorem discover_region_failure_raises :
    exceptOk c1CexEnv.cloudwanFetch = true ∧
    exceptOk (c1CexEnv.tgwFetch ("us-east-1")) = true ∧
    exceptOk (c1CexEnv.tgwFetch ("eu-west-1")) = false ∧
    exceptOk (c1CexEnv.vpcFetch ("us-east-1")) = true ∧
    exceptOk (c1CexEnv.vpcFetch ("eu-west-1")) = true ∧
    exceptOk (c1CexEnv.eniFetch ("us-east-1")) = true ∧
    exceptOk (c1CexEnv.eniFetch ("eu-west-1")) = true ∧
    discover c1CexEnv = .error "UnauthorizedOperation" :=
  ⟨rfl, rfl, rfl, rfl, rfl, rfl, rfl, rfl⟩

/-! ## Markers persistence and the cached-snapshot staleness gate -/

/-- C10: markers saved by save_markers are returned unchanged by
get_saved_markers at any later read time: the record is written with no
account id (Cache.set is called without one) and read with ignore_expiry,
so neither TTL age nor the reading account can invalidate it. -/
theorem saved_markers_roundtrip (m : ChangeMarkers)
    (tSave defaultTtl tRead : Int) :
    get_saved_markers (save_markers m tSave defaultTtl) tRead = some m := by
  cases m
  rfl

/-- C3 counterexample: a present, unexpired, account-matching snapshot with
no markers ever saved; get_cached with check_staleness requested returns
the snapshot, not none.  The staleness check sits behind the
if saved_markers guard, so is_stale (which would report No markers saved)
is never consulted. -/
theorem get_cached_no_markers_returns_snapshot :
    c3State.markersFile = none ∧
    cache_get c3State.topoFile 10 false (some "123456789012") = some emptyTopology ∧
    is_stale none blankMarkers = (true, "No markers saved") ∧
    get_cached c3State 10 ("123456789012") true blankMarkers = some emptyTopology :=
  ⟨rfl, rfl, rfl, rfl⟩

/-- C3 as amended: with a present, unexpired cached snapshot and no saved
markers, get_cached with check_staleness=true skips the staleness check and
returns the cached snapshot, even though the staleness checker itself
judges the absence of markers as stale. -/
theorem get_cached_skips_staleness_without_markers (st : TopoCacheState)
    (now : Int) (accountId : String) (current : ChangeMarkers)
    (topo : NetworkTopology)
    (hc : cache_get st.topoFile now false (some accountId) = some topo)
    (hm : get_saved_markers st.markersFile now = none) :
    get_cached st now accountId true current = some topo ∧
    is_stale (get_saved_markers st.markersFile now) current
      = (true, "No markers saved") := by
  constructor
  · simp only [get_cached, hc, hm]
    simp
  · rw [hm]
    rfl

/-- Witness for the amended C3 on the concrete cache state. -/
theorem get_cached_skips_staleness_without_markers_witness :
    get_cached c3State 5 ("123456789012") true blankMarkers = some emptyTopology ∧
    is_stale (get_saved_markers c3State.markersFile 5) blankMarkers
      = (true, "No markers saved") :=
  get_cached_skips_staleness_without_markers c3State 5 ("123456789012")
    blankMarkers emptyTopology rfl rfl

/-! ## Field conditions of the staleness comparison -/

/-- Inversion of the policy-version test: it reports a change only when
both versions are recorded and differ. -/
theorem policyChanged_some (sv cv : Option Int) (s c : Int)
    (h : policyChanged sv cv = some (s, c)) :
    sv = some s ∧ cv = some c ∧ s ≠ c := by
  cases sv with
  | none => cases cv <;> cases h
  | some s' =>
    cases cv with
    | none => cases h
    | some c' =>
      simp only [policyChanged] at h
      by_cases hne : c' ≠ s'
      · rw [if_pos hne] at h
        simp only [Option.some.injEq, Prod.mk.injEq] at h
        obtain ⟨h1, h2⟩ := h
        subst h1
        subst h2
        exact ⟨rfl, rfl, Ne.symm hne⟩
      · rw [if_neg hne] at h
        cases h

/-- Inversion of the per-region count loop: a reported change names a
region present in the current counts whose saved count exists and
differs. -/
theorem firstCountChange_mem (cur sav : List (String × Nat)) (r : String)
    (s c : Nat) (h : firstCountChange cur sav = some (r, s, c)) :
    (r, c) ∈ cur ∧ sav.lookup r = some s ∧ s ≠ c := by
  induction cur with
  | nil => cases h
  | cons p rest ih =>
    obtain ⟨region, count⟩ := p
    simp only [firstCountChange] at h
    split at h
    · rename_i sc heq
      split at h
      · rename_i hne
        simp only [Option.some.injEq, Prod.mk.injEq] at h
        obtain ⟨h1, h2, h3⟩ := h
        subst h1
        subst h2
        subst h3
        exact ⟨List.mem_cons_self _ _, heq, hne⟩
      · rename_i hne
        obtain ⟨hm, hlk, hne'⟩ := ih h
        exact ⟨List.mem_cons_of_mem _ hm, hlk, hne'⟩
    · obtain ⟨hm, hlk, hne'⟩ := ih h
      exact ⟨List.mem_cons_of_mem _ hm, hlk, hne'⟩

/-- C4 counterexample: a per-region transit-gateway count whose saved
value is zero (present but not non-zero) triggers the stale verdict, so a
field can contribute a stale verdict without both values being non-zero. -/
theorem is_stale_zero_count_triggers :
    saved4.tgw_count = [("eu-west-1", 0)] ∧
    current4.tgw_count = [("eu-west-1", 2)] ∧
    is_stale (some saved4) current4 =
      (true, "TGW count changed in eu-west-1: 0 → 2") :=
  ⟨rfl, rfl, rfl⟩

/-- C4 as amended: the four fields are checked in the fixed order policy
version, attachment count, per-region TGW counts, per-region VPC counts,
the first mismatch short-circuiting with a reason rendering the two
values; a field contributes only when both its saved and current values
are present and differ, where present means recorded (is not None) for the
policy version, strictly positive for the attachment count, and region key
present (a zero count included) for the per-region counts; with no such
mismatch the verdict is not stale.  An absent prior observation therefore
never by itself produces a stale verdict. -/
theorem is_stale_field_conditions (saved current : ChangeMarkers) :
    (∀ s c, saved.cwan_policy_version = some s →
        current.cwan_policy_version = some c → c ≠ s →
        is_stale (some saved) current =
          (true, "Cloud WAN policy changed: " ++ toString s ++ " → "
                 ++ toString c)) ∧
    (policyChanged saved.cwan_policy_version current.cwan_policy_version = none →
        0 < current.cwan_attachment_count → 0 < saved.cwan_attachment_count →
        current.cwan_attachment_count ≠ saved.cwan_attachment_count →
        is_stale (some saved) current =
          (true, "Attachment count changed: "
                 ++ toString saved.cwan_attachment_count ++ " → "
                 ++ toString current.cwan_attachment_count)) ∧
    (policyChanged saved.cwan_policy_version current.cwan_policy_version = none →
        ¬(0 < current.cwan_attachment_count ∧ 0 < saved.cwan_attachment_count ∧
          current.cwan_attachment_count ≠ saved.cwan_attachment_count) →
        ∀ r s c, firstCountChange current.tgw_count saved.tgw_count
            = some (r, s, c) →
        is_stale (some saved) current =
          (true, "TGW count changed in " ++ r ++ ": " ++ toString s ++ " → "
                 ++ toString c)) ∧
    (policyChanged saved.cwan_policy_version current.cwan_policy_version = none →
        ¬(0 < current.cwan_attachment_count ∧ 0 < saved.cwan_attachment_count ∧
          current.cwan_attachment_count ≠ saved.cwan_attachment_count) →
        firstCountChange current.tgw_count saved.tgw_count = none →
        ∀ r s c, firstCountChange current.vpc_count saved.vpc_count
            = some (r, s, c) →
        is_stale (some saved) current =
          (true, "VPC count changed in " ++ r ++ ": " ++ toString s ++ " → "
                 ++ toString c)) ∧
    (policyChanged saved.cwan_policy_version current.cwan_policy_version = none →
        ¬(0 < current.cwan_attachment_count ∧ 0 < saved.cwan_attachment_count ∧
          current.cwan_attachment_count ≠ saved.cwan_attachment_count) →
        firstCountChange current.tgw_count saved.tgw_count = none →
        firstCountChange current.vpc_count saved.vpc_count = none →
        is_stale (some saved) current = (false, "No changes detected")) ∧
    ((is_stale (some saved) current).1 = true →
        (∃ s c, saved.cwan_policy_version = some s ∧
           current.cwan_policy_version = some c ∧ s ≠ c) ∨
        (0 < saved.cwan_attachment_count ∧ 0 < current.cwan_attachment_count ∧
           saved.cwan_attachment_count ≠ current.cwan_attachment_count) ∨
        (∃ r c s, (r, c) ∈ current.tgw_count ∧
           saved.tgw_count.lookup r = some s ∧ s ≠ c) ∨
        (∃ r c s, (r, c) ∈ current.vpc_count ∧
           saved.vpc_count.lookup r = some s ∧ s ≠ c)) := by
  refine ⟨?_, ?_, ?_, ?_, ?_, ?_⟩
  · intro s c hs hc hne
    simp only [is_stale, is_stale_compare, hs, hc, policyChanged]
    rw [if_pos hne]
  · intro hpc h0c h0s hnea
    simp only [is_stale, is_stale_compare, hpc]
    rw [if_pos ⟨h0c, h0s, hnea⟩]
  · intro hpc hga r s c htg
    simp only [is_stale, is_stale_compare, hpc, htg]
    rw [if_neg hga]
  · intro hpc hga htg r s c hvp
    simp only [is_stale, is_stale_compare, hpc, htg, hvp]
    rw [if_neg hga]
  · intro hpc hga htg hvp
    simp only [is_stale, is_stale_compare, hpc, htg, hvp]
    rw [if_neg hga]
  · intro hflag
    cases hpc : policyChanged saved.cwan_policy_version current.cwan_policy_version with
    | some p =>
      obtain ⟨s, c⟩ := p
      obtain ⟨hs, hc, hne⟩ := policyChanged_some _ _ s c hpc
      exact Or.inl ⟨s, c, hs, hc, hne⟩
    | none =>
      by_cases hg : 0 < current.cwan_attachment_count ∧
          0 < saved.cwan_attachment_count ∧
          current.cwan_attachment_count ≠ saved.cwan_attachment_count
      · exact Or.inr (Or.inl ⟨hg.2.1, hg.1, fun h => hg.2.2 h.symm⟩)
      · cases ht : firstCountChange current.tgw_count saved.tgw_count with
        | some p =>
          obtain ⟨r, s, c⟩ := p
          obtain ⟨hm, hlk, hne⟩ := firstCountChange_mem _ _ r s c ht
          exact Or.inr (Or.inr (Or.inl ⟨r, c, s, hm, hlk, hne⟩))
        | none =>
          cases hv : firstCountChange current.vpc_count saved.vpc_count with
          | some p =>
            obtain ⟨r, s, c⟩ := p
            obtain ⟨hm, hlk, hne⟩ := firstCountChange_mem _ _ r s c hv
            exact Or.inr (Or.inr (Or.inr ⟨r, c, s, hm, hlk, hne⟩))
          | none =>
            have hfalse : is_stale (some saved) current
                = (false, "No changes detected") := by
              simp only [is_stale, is_stale_compare, hpc, ht, hv]
              rw [if_neg hg]
            rw [hfalse] at hflag
            cases hflag

/-- Witness for the amended C4: a policy-version change (first field)
short-circuits with the policy reason even when later fields also
differ. -/
theorem is_stale_field_conditions_witness :
    is_stale (some ⟨some 3, 0, [("eu-west-1", 1)], []⟩)
        ⟨some 4, 9, [("eu-west-1", 2)], []⟩ =
      (true, "Cloud WAN policy changed: 3 → 4") :=
  (is_stale_field_conditions ⟨some 3, 0, [("eu-west-1", 1)], []⟩
    ⟨some 4, 9, [("eu-west-1", 2)], []⟩).1 3 4 rfl rfl (by decide)

end AwsNetTools
